import Mathlib

/-!
Shallow embedding of the audio-diarization pipeline
(src/audio_transcriber.py, src/audio_processor.py, src/main.py,
src/app.py, src/web_app.py).

Times and file sizes are modelled as rationals; machine-learning model
invocations (pyannote crop, Whisper generate) are external collaborators,
so each diarization segment carries an oracle giving the outcome of its
crop call and of its transcription call (either a value or a raised
exception, `Except`).  The per-segment loops additionally emit a trace of
`Event`s recording which external calls were actually made, and the
whole-file orchestrators return the number of unlink operations performed
on the extracted temporary audio file during the invocation.
-/

/-- Python `f"{n:02}"`: decimal rendering left-padded with zeros to width 2. -/
def pad2 (n : ℤ) : String :=
  let s := toString n
  if s.length < 2 then "0" ++ s else s

namespace AudioProcessor

/-- Embeds `AudioProcessor._format_time` (src/audio_processor.py lines 182-187):
`total_seconds = int(seconds)` truncates toward zero, then two Python
`divmod`s (floor division) split hours/minutes/seconds, each rendered
with `f"{...:02}"`. -/
def format_time (seconds : ℚ) : String :=
  let total_seconds : ℤ := Int.tdiv seconds.num (seconds.den : ℤ)
  let hours := Int.ediv total_seconds 3600
  let remainder := Int.emod total_seconds 3600
  let minutes := Int.ediv remainder 60
  let secs := Int.emod remainder 60
  pad2 hours ++ ":" ++ pad2 minutes ++ ":" ++ pad2 secs

end AudioProcessor

namespace AudioTranscriber

/-- Embeds `AudioTranscriber._seconds_to_timestamp` (src/audio_transcriber.py
lines 193-198); body identical to `AudioProcessor._format_time`. -/
def seconds_to_timestamp (seconds : ℚ) : String :=
  let total_seconds : ℤ := Int.tdiv seconds.num (seconds.den : ℤ)
  let hours := Int.ediv total_seconds 3600
  let remainder := Int.emod total_seconds 3600
  let minutes := Int.ediv remainder 60
  let secs := Int.emod remainder 60
  pad2 hours ++ ":" ++ pad2 minutes ++ ":" ++ pad2 secs

end AudioTranscriber

/-- Whitespace test used by Python `str.strip()`. -/
def pyIsSpace (c : Char) : Bool := c.isWhitespace

/-- Python `str.strip()` on the character list: drop whitespace from the
front, then from the back. -/
def strip_chars (cs : List Char) : List Char :=
  ((cs.dropWhile pyIsSpace).reverse.dropWhile pyIsSpace).reverse

/-- Python `str.strip()`. -/
def pyStrip (s : String) : String := String.mk (strip_chars s.data)

/-- A pyannote diarization segment: `(segment, _, speaker_label)` from
`diarization.itertracks(yield_label=True)`.  `stop` stands for the Python
attribute `end` (a Lean keyword). -/
structure DiarSeg where
  start : ℚ
  stop : ℚ
  speaker : String
deriving DecidableEq, Repr

/-- Result of `self.audio_handler.crop(...)`: a waveform tensor together
with the sample rate.  Only the sample count (`waveform.shape[-1]`) is
observable in the embedded code. -/
structure Waveform where
  numSamples : ℕ
  sampleRate : ℕ
deriving DecidableEq, Repr

/-- Outcomes of the two external model calls for one segment: the crop of
the audio handler, and the Whisper transcription (the value returned by
`generate`/`batch_decode`, or the exception either call raises). -/
structure SegOracle where
  crop : Except String Waveform
  transcribe : Except String String

/-- Observable external calls made by the per-segment loops. -/
inductive Event where
  | cropCall
  | transcribeCall
deriving DecidableEq, Repr

/-- A stored result dict
`{'start': ..., 'end': ..., 'speaker': ..., 'text': ...}`.
`stop` stands for the key `end`. -/
structure TranscriptSeg where
  start : String
  stop : String
  speaker : String
  text : String
deriving DecidableEq, Repr

namespace AudioTranscriber

/-- Embeds `AudioTranscriber._transcribe_audio_segment` (lines 157-191): the whole
body is inside `try`; any exception from the Whisper call is caught and
`None` is returned, otherwise the decoded text is returned. -/
def transcribe_audio_segment (oracle : Except String String) : Option String :=
  match oracle with
  | Except.ok t => some t
  | Except.error _e => none

/-- The per-segment loop of `AudioTranscriber.transcribe_file`
(lines 130-147).  For each segment in order: skip if
`segment.duration < 0.5`; crop (an exception here is NOT caught: it aborts
the whole loop and the accumulated results are discarded); transcribe
(internally caught, yielding `Option`); keep the stripped text when
`transcribed_text and transcribed_text.strip()` is truthy.  The recursion
emits the current segment's events and result in front of the rest,
matching the Python append order; when a later segment aborts, the
`Except.error` branch discards all accumulated results exactly as the
propagating exception does. -/
def transcribe_file_loop :
    List (DiarSeg × SegOracle) → List Event × Except String (List TranscriptSeg)
  | [] => ([], Except.ok [])
  | (segment, oracle) :: rest =>
    if segment.stop - segment.start < (0.5 : ℚ) then
      transcribe_file_loop rest
    else
      match oracle.crop with
      | Except.error e => ([Event.cropCall], Except.error e)
      | Except.ok _waveform =>
        let transcribed_text := transcribe_audio_segment oracle.transcribe
        let res := transcribe_file_loop rest
        match res.2 with
        | Except.error e =>
          (Event.cropCall :: Event.transcribeCall :: res.1, Except.error e)
        | Except.ok results =>
          (Event.cropCall :: Event.transcribeCall :: res.1,
           Except.ok
             (match transcribed_text with
              | some t =>
                if t ≠ "" ∧ pyStrip t ≠ "" then
                  { start := seconds_to_timestamp segment.start,
                    stop := seconds_to_timestamp segment.stop,
                    speaker := segment.speaker,
                    text := pyStrip t } :: results
                else results
              | none => results))

end AudioTranscriber

namespace AudioProcessor

/-- Embeds `AudioProcessor._transcribe_segment` (lines 151-180): whole body inside
`try`; an exception from the Whisper call is caught and `None` returned. -/
def transcribe_segment (oracle : Except String String) : Option String :=
  match oracle with
  | Except.ok t => some t
  | Except.error _e => none

/-- The per-segment loop of `AudioProcessor.process_file` (lines 124-146).
Each iteration is wrapped in `try/except Exception: continue`, so a crop
exception only skips the current segment.  The crop happens FIRST; the
minimum-duration check `waveform.shape[-1] / sample_rate < 0.1` is applied
to the cropped waveform afterwards; then the transcription call (which
catches its own errors) and the keep test on the stripped text. -/
def process_file_loop :
    List (DiarSeg × SegOracle) → List Event × List TranscriptSeg
  | [] => ([], [])
  | (segment, oracle) :: rest =>
    let res := process_file_loop rest
    match oracle.crop with
    | Except.error _e => (Event.cropCall :: res.1, res.2)
    | Except.ok waveform =>
      if (waveform.numSamples : ℚ) / (waveform.sampleRate : ℚ) < (0.1 : ℚ) then
        (Event.cropCall :: res.1, res.2)
      else
        match transcribe_segment oracle.transcribe with
        | some t =>
          if t ≠ "" ∧ pyStrip t ≠ "" then
            (Event.cropCall :: Event.transcribeCall :: res.1,
             { start := format_time segment.start,
               stop := format_time segment.stop,
               speaker := segment.speaker,
               text := pyStrip t } :: res.2)
          else (Event.cropCall :: Event.transcribeCall :: res.1, res.2)
        | none => (Event.cropCall :: Event.transcribeCall :: res.1, res.2)

end AudioProcessor

/-- Inputs of one whole-file pipeline invocation: whether the input file
has a video extension, the outcome of the moviepy audio extraction, and
the outcome of the diarization model (its segments with their per-segment
oracles, or the exception it raises). -/
structure RunInput where
  isVideo : Bool
  extraction : Except String Unit
  diarization : Except String (List (DiarSeg × SegOracle))

namespace AudioTranscriber

/-- Embeds `AudioTranscriber.transcribe_file` (lines 100-155).  Returns the
result (or the propagated exception) together with the number of unlink
operations performed on the extracted temporary audio file during this
invocation.  Video input: extraction failure unlinks the partial temp file
inside `extract_audio_from_mp4` and re-raises; otherwise the `finally`
block unlinks the temp file exactly once on every exit path (diarization
error, per-segment crop error, or normal completion).  Audio input: no
temp file, `temp_file = None`, no unlink. -/
def transcribe_file (inp : RunInput) :
    Except String (List TranscriptSeg) × ℕ :=
  if inp.isVideo then
    match inp.extraction with
    | Except.error e => (Except.error ("音声抽出失敗: " ++ e), 1)
    | Except.ok _u =>
      match inp.diarization with
      | Except.error e => (Except.error e, 1)
      | Except.ok segs => ((transcribe_file_loop segs).2, 1)
  else
    match inp.diarization with
    | Except.error e => (Except.error e, 0)
    | Except.ok segs => ((transcribe_file_loop segs).2, 0)

end AudioTranscriber

namespace AudioProcessor

/-- Embeds `AudioProcessor.process_file` (lines 101-149).  Returns the result (or
the propagated exception) together with the number of unlink operations
performed on the extracted temporary audio file during this invocation.
`process_file` itself contains no deletion: on extraction failure the
partial temp file is unlinked inside `extract_audio_from_video` (which
returns `None`, turned into a `RuntimeError`); on every other path the
temp file stored in `self.temp_audio_file` is left on disk, to be removed
only by a later `cleanup()` / `__del__`. -/
def process_file (inp : RunInput) :
    Except String (List TranscriptSeg) × ℕ :=
  if inp.isVideo then
    match inp.extraction with
    | Except.error _e => (Except.error "音声抽出に失敗しました", 1)
    | Except.ok _u =>
      match inp.diarization with
      | Except.error e => (Except.error e, 0)
      | Except.ok segs => (Except.ok (process_file_loop segs).2, 0)
  else
    match inp.diarization with
    | Except.error e => (Except.error e, 0)
    | Except.ok segs => (Except.ok (process_file_loop segs).2, 0)

/-- Embeds `AudioProcessor.cleanup` (lines 213-221): unlinks the stored temp file
when one is set (returns the number of unlinks performed). -/
def cleanup (temp_audio_file_set : Bool) : ℕ :=
  if temp_audio_file_set then 1 else 0

end AudioProcessor

/-- Lazily-loaded model fields of an `AudioTranscriber` instance.  Each
execution of the loading body creates fresh model objects; a loaded field
`some g` records the load generation `g` that created it, and
`load_count` counts how many times the `from_pretrained` loads ran. -/
structure TranscriberState where
  diarization_pipeline : Option ℕ
  whisper_processor : Option ℕ
  whisper_model : Option ℕ
  audio_handler : Option ℕ
  load_count : ℕ
deriving DecidableEq, Repr

/-- Model fields of an `AudioProcessor` instance, same conventions. -/
structure ProcessorState where
  pipeline : Option ℕ
  processor : Option ℕ
  model : Option ℕ
  audio_handler : Option ℕ
  load_count : ℕ
deriving DecidableEq, Repr

namespace AudioTranscriber

/-- Embeds `AudioTranscriber._load_models` (lines 46-68): returns immediately if
`self.diarization_pipeline is not None`, otherwise performs the loads and
assigns all four fields. -/
def load_models (st : TranscriberState) : TranscriberState :=
  if st.diarization_pipeline.isSome then st
  else
    { diarization_pipeline := some st.load_count,
      whisper_processor := some st.load_count,
      whisper_model := some st.load_count,
      audio_handler := some st.load_count,
      load_count := st.load_count + 1 }

end AudioTranscriber

namespace AudioProcessor

/-- Embeds `AudioProcessor._load_models` (lines 45-64): no guard — every call
performs the loads and reassigns all four fields. -/
def load_models (st : ProcessorState) : ProcessorState :=
  { pipeline := some st.load_count,
    processor := some st.load_count,
    model := some st.load_count,
    audio_handler := some st.load_count,
    load_count := st.load_count + 1 }

/-- The guard at the top of `AudioProcessor.process_file` (lines 105-106):
`if self.pipeline is None: self._load_models()`. -/
def ensure_loaded (st : ProcessorState) : ProcessorState :=
  if st.pipeline.isSome then st else load_models st

end AudioProcessor

namespace AudioTranscriber

/-- The `markdown_lines` list of `AudioTranscriber.create_markdown_report`
(lines 212-232), with the wall-clock timestamp string as a parameter. -/
def create_markdown_report_lines
    (results : List TranscriptSeg) (input_filename now : String) : List String :=
  let speakers := (results.map (fun r => r.speaker)).dedup.length
  let segments := results.length
  ["# 🎵 音声文字起こし結果",
   "",
   "**📁 入力ファイル**: " ++ input_filename,
   "**📅 処理日時**: " ++ now,
   "**👥 話者数**: " ++ toString speakers ++ "名",
   "**📊 総セグメント数**: " ++ toString segments ++ "個",
   "",
   "---",
   "",
   "## 📝 発話内容",
   ""]
  ++ (results.map (fun r =>
        ["**[" ++ r.start ++ " - " ++ r.stop ++ "] " ++ r.speaker ++ ":**",
         "> " ++ r.text,
         ""])).flatten

/-- Embeds `AudioTranscriber.create_markdown_report` (lines 200-234):
`"\n".join(markdown_lines)`. -/
def create_markdown_report
    (results : List TranscriptSeg) (input_filename now : String) : String :=
  String.intercalate "\n" (create_markdown_report_lines results input_filename now)

end AudioTranscriber

namespace AudioProcessor

/-- The `markdown_lines` list of `AudioProcessor.results_to_markdown`
(lines 189-209). -/
def results_to_markdown_lines
    (results : List TranscriptSeg) (input_filename now : String) : List String :=
  let speakers := (results.map (fun r => r.speaker)).dedup.length
  let segments := results.length
  ["# 音声文字起こし結果",
   "",
   "**入力ファイル**: " ++ input_filename,
   "**処理日時**: " ++ now,
   "**話者数**: " ++ toString speakers ++ "名",
   "**総セグメント数**: " ++ toString segments ++ "個",
   "",
   "## 発話内容",
   ""]
  ++ (results.map (fun r =>
        ["**[" ++ r.start ++ " - " ++ r.stop ++ "] " ++ r.speaker ++ ":**",
         r.text,
         ""])).flatten

/-- Embeds `AudioProcessor.results_to_markdown`: `"\n".join(markdown_lines)`. -/
def results_to_markdown
    (results : List TranscriptSeg) (input_filename now : String) : String :=
  String.intercalate "\n" (results_to_markdown_lines results input_filename now)

end AudioProcessor

/-- The tail of `main()` in src/main.py (lines 64-82) after
`transcribe_file` returned `results`: `if not results: print(...);
sys.exit(1)` — otherwise the report is generated and saved and the process
exits 0.  Returns (exit code, generated report if any). -/
def main_after_transcribe
    (results : List TranscriptSeg) (input_filename now : String) :
    ℕ × Option String :=
  if results.isEmpty then (1, none)
  else (0, some (AudioTranscriber.create_markdown_report results input_filename now))

/-- The tail of `process_uploaded_file` in src/web_app.py (lines 157-169)
after `transcribe_file` returned `results`: `if not results: st.error(...);
return` — no report is generated; otherwise the markdown report is built. -/
def web_app_after_transcribe
    (results : List TranscriptSeg) (input_filename now : String) : Option String :=
  if results.isEmpty then none
  else some (AudioTranscriber.create_markdown_report results input_filename now)

/-- What the upload size check in src/app.py does for one uploaded file. -/
inductive SizeAction where
  | softWarn
  | hardStop
  | allowStart
deriving DecidableEq, Repr

/-- The size check in `main()` of src/app.py (lines 119-124):
`if file_size_mb > 500: st.warning(...) elif file_size_mb > 1000:
st.error(...); st.stop()`. -/
def app_size_check (file_size_mb : ℚ) : SizeAction :=
  if file_size_mb > 500 then SizeAction.softWarn
  else if file_size_mb > 1000 then SizeAction.hardStop
  else SizeAction.allowStart

/-- Whether the start button is reachable for this upload: `st.stop()`
halts the script, every other branch falls through to the button. -/
def app_processing_allowed (file_size_mb : ℚ) : Bool :=
  match app_size_check file_size_mb with
  | SizeAction.hardStop => false
  | _ => true

/-- Builds the oracle of a segment whose crop and transcription both
succeed with fixed outputs (the "fixed transcription output per segment"
hypothesis). -/
def pureOracle (w : Waveform) (t : String) : SegOracle :=
  { crop := Except.ok w, transcribe := Except.ok t }

/-! ## Theorems -/

/-- C9: The timestamp formatting function maps a number of seconds to a
zero-padded HH:MM:SS string truncated to whole seconds; in particular
format(0) = "00:00:00", format(65) = "00:01:05" and format(3661) =
"01:01:01", identically in both implementations (`_format_time` and
`_seconds_to_timestamp`). -/
theorem c9_timestamp_format :
    (∀ q : ℚ, AudioTranscriber.seconds_to_timestamp q = AudioProcessor.format_time q)
    ∧ AudioProcessor.format_time 0 = "00:00:00"
    ∧ AudioProcessor.format_time 65 = "00:01:05"
    ∧ AudioProcessor.format_time 3661 = "01:01:01"
    ∧ (∀ q : ℚ,
        AudioProcessor.format_time q =
          AudioProcessor.format_time ((Int.tdiv q.num (q.den : ℤ) : ℤ) : ℚ))
    ∧ AudioProcessor.format_time (Rat.divInt 36619 10) = "01:01:01" := by
  refine ⟨fun q => rfl, by decide, by decide, by decide, ?_, by decide⟩
  intro q
  simp [AudioProcessor.format_time, Rat.num_intCast, Rat.den_intCast]

/-- C6 (code bug witness): in src/app.py a 1500MB upload takes the
`> 500` branch (soft warning) and the `elif > 1000` hard-stop branch is
unreachable, so processing is still allowed to start. -/
theorem c6_size_gate_at_1500 :
    app_size_check 1500 = SizeAction.softWarn
    ∧ app_processing_allowed 1500 = true := by
  constructor <;> decide

/-- C7 counterexample: `AudioProcessor._load_models` has no
already-loaded guard, so invoking it again after models have been loaded
once is not a no-op — it re-runs the pretrained loads and rebinds the
fields to freshly created objects. -/
theorem c7_counterexample :
    AudioProcessor.load_models
        (AudioProcessor.load_models
          { pipeline := none, processor := none, model := none,
            audio_handler := none, load_count := 0 }) ≠
      AudioProcessor.load_models
        { pipeline := none, processor := none, model := none,
          audio_handler := none, load_count := 0 } := by
  decide

/-- C7 (amended): `AudioTranscriber._load_models` is idempotent after the
first call (internal `is not None` guard); for `AudioProcessor` the guard
sits in the caller `process_file` (`if self.pipeline is None`), and it is
that guarded operation, not `_load_models` itself, that is a no-op once
models are loaded. -/
theorem c7_loader_idempotent (st1 : TranscriberState) (st2 : ProcessorState)
    (h1 : st1.diarization_pipeline.isSome = true)
    (h2 : st2.pipeline.isSome = true) :
    AudioTranscriber.load_models st1 = st1 ∧ AudioProcessor.ensure_loaded st2 = st2 := by
  constructor
  · simp [AudioTranscriber.load_models, h1]
  · simp [AudioProcessor.ensure_loaded, h2]

/-- C7 witness: the amended idempotence applied to concrete loaded states. -/
theorem c7_witness :
    AudioTranscriber.load_models
        { diarization_pipeline := some 0, whisper_processor := some 0,
          whisper_model := some 0, audio_handler := some 0, load_count := 1 } =
      { diarization_pipeline := some 0, whisper_processor := some 0,
        whisper_model := some 0, audio_handler := some 0, load_count := 1 }
    ∧ AudioProcessor.ensure_loaded
        { pipeline := some 0, processor := some 0, model := some 0,
          audio_handler := some 0, load_count := 1 } =
      { pipeline := some 0, processor := some 0, model := some 0,
        audio_handler := some 0, load_count := 1 } :=
  c7_loader_idempotent _ _ (by decide) (by decide)

/-- Helper: `dropWhile` is idempotent. -/
theorem dropWhile_dropWhile_self {α : Type} (p : α → Bool) (l : List α) :
    (l.dropWhile p).dropWhile p = l.dropWhile p := by
  induction l with
  | nil => rfl
  | cons a l ih =>
    cases hpa : p a with
    | true => simp [List.dropWhile_cons, hpa, ih]
    | false => simp [List.dropWhile_cons, hpa]

/-- Helper: the head of `dropWhile p l` does not satisfy `p`. -/
theorem head_dropWhile_false {α : Type} (p : α → Bool) :
    ∀ (l : List α) (b : α) (t : List α), l.dropWhile p = b :: t → p b = false := by
  intro l
  induction l with
  | nil => intro b t h; simp [List.dropWhile] at h
  | cons a l ih =>
    intro b t h
    cases hpa : p a with
    | true =>
      rw [List.dropWhile_cons] at h
      simp only [hpa, if_true] at h
      exact ih b t h
    | false =>
      rw [List.dropWhile_cons] at h
      simp only [hpa] at h
      simp at h
      exact h.1 ▸ hpa

/-- Helper: `dropWhile` keeps the original last element when nonempty. -/
theorem getLast?_dropWhile_ne_nil {α : Type} (p : α → Bool) :
    ∀ (l : List α), l.dropWhile p ≠ [] → (l.dropWhile p).getLast? = l.getLast? := by
  intro l
  induction l with
  | nil => intro h; simp [List.dropWhile] at h
  | cons a l ih =>
    intro h
    cases hpa : p a with
    | false => simp [List.dropWhile_cons, hpa]
    | true =>
      rw [List.dropWhile_cons] at h ⊢
      simp only [hpa, if_true] at h ⊢
      have hl : l ≠ [] := by
        intro he; rw [he] at h; simp [List.dropWhile] at h
      rw [ih h]
      cases l with
      | nil => exact absurd rfl hl
      | cons b l2 => rw [List.getLast?_cons_cons]

/-- Helper: `strip_chars` is idempotent. -/
theorem strip_chars_idem (cs : List Char) :
    strip_chars (strip_chars cs) = strip_chars cs := by
  have h1 : (strip_chars cs).dropWhile pyIsSpace = strip_chars cs := by
    cases hcr : strip_chars cs with
    | nil => rfl
    | cons b t =>
      unfold strip_chars at hcr
      have h6 : pyIsSpace b = false := by
        have hne : (cs.dropWhile pyIsSpace).reverse.dropWhile pyIsSpace ≠ [] := by
          intro he; rw [he] at hcr; simp at hcr
        have h4 : ((cs.dropWhile pyIsSpace).reverse.dropWhile pyIsSpace).getLast? = some b := by
          rw [← List.head?_reverse, hcr]; rfl
        have h5 : (cs.dropWhile pyIsSpace).head? = some b := by
          rw [← List.getLast?_reverse]
          rw [← getLast?_dropWhile_ne_nil pyIsSpace (cs.dropWhile pyIsSpace).reverse hne]
          exact h4
        cases haa : cs.dropWhile pyIsSpace with
        | nil => rw [haa] at h5; simp at h5
        | cons x xs =>
          have hxb : x = b := by rw [haa] at h5; simpa using h5
          have hx := head_dropWhile_false pyIsSpace cs x xs haa
          rw [← hxb]; exact hx
      rw [List.dropWhile_cons]
      simp [h6]
  calc strip_chars (strip_chars cs)
      = (((strip_chars cs).dropWhile pyIsSpace).reverse.dropWhile pyIsSpace).reverse := rfl
    _ = ((strip_chars cs).reverse.dropWhile pyIsSpace).reverse := by rw [h1]
    _ = ((((cs.dropWhile pyIsSpace).reverse.dropWhile pyIsSpace).reverse).reverse.dropWhile
          pyIsSpace).reverse := rfl
    _ = (((cs.dropWhile pyIsSpace).reverse.dropWhile pyIsSpace).dropWhile pyIsSpace).reverse := by
          rw [List.reverse_reverse]
    _ = ((cs.dropWhile pyIsSpace).reverse.dropWhile pyIsSpace).reverse := by
          rw [dropWhile_dropWhile_self]
    _ = strip_chars cs := rfl

/-- Helper: Python `strip` is idempotent. -/
theorem pyStrip_idem (s : String) : pyStrip (pyStrip s) = pyStrip s := by
  show String.mk (strip_chars (strip_chars s.data)) = String.mk (strip_chars s.data)
  rw [strip_chars_idem]

/-- C10: Every TranscriptSeg emitted by the Segment Pipeline
(`AudioProcessor.process_file` / `AudioTranscriber.transcribe_file`) has a
`text` field that is non-empty and equal to its own whitespace-trimmed
value, because only the stripped transcription output is ever stored. -/
theorem c10_stored_text_invariant (segs : List (DiarSeg × SegOracle)) :
    (∀ r ∈ (AudioProcessor.process_file_loop segs).2,
        r.text ≠ "" ∧ pyStrip r.text = r.text)
    ∧ (∀ rs, (AudioTranscriber.transcribe_file_loop segs).2 = Except.ok rs →
        ∀ r ∈ rs, r.text ≠ "" ∧ pyStrip r.text = r.text) := by
  induction segs with
  | nil =>
    constructor
    · intro r hr
      simp [AudioProcessor.process_file_loop] at hr
    · intro rs hrs r hr
      simp only [AudioTranscriber.transcribe_file_loop] at hrs
      rw [Except.ok.injEq] at hrs
      subst hrs
      simp at hr
  | cons p rest ih =>
    obtain ⟨segment, oracle⟩ := p
    obtain ⟨ihP, ihT⟩ := ih
    constructor
    · intro r hr
      cases hco : oracle.crop with
      | error e =>
        simp only [AudioProcessor.process_file_loop, hco] at hr
        exact ihP r hr
      | ok w =>
        by_cases hdur : (w.numSamples : ℚ) / (w.sampleRate : ℚ) < (0.1 : ℚ)
        · simp only [AudioProcessor.process_file_loop, hco, if_pos hdur] at hr
          exact ihP r hr
        · cases htr : oracle.transcribe with
          | error e =>
            simp only [AudioProcessor.process_file_loop, hco, if_neg hdur, htr,
              AudioProcessor.transcribe_segment] at hr
            exact ihP r hr
          | ok t =>
            by_cases hkeep : t ≠ "" ∧ pyStrip t ≠ ""
            · simp only [AudioProcessor.process_file_loop, hco, if_neg hdur, htr,
                AudioProcessor.transcribe_segment, if_pos hkeep] at hr
              rcases List.mem_cons.mp hr with h | h
              · subst h
                exact ⟨hkeep.2, pyStrip_idem t⟩
              · exact ihP r h
            · simp only [AudioProcessor.process_file_loop, hco, if_neg hdur, htr,
                AudioProcessor.transcribe_segment, if_neg hkeep] at hr
              exact ihP r hr
    · intro rs hrs r hr
      by_cases hdur : segment.stop - segment.start < (0.5 : ℚ)
      · simp only [AudioTranscriber.transcribe_file_loop, if_pos hdur] at hrs
        exact ihT rs hrs r hr
      · cases hco : oracle.crop with
        | error e =>
          simp only [AudioTranscriber.transcribe_file_loop, if_neg hdur, hco] at hrs
          exact (Except.noConfusion hrs)
        | ok w =>
          cases hres : (AudioTranscriber.transcribe_file_loop rest).2 with
          | error e =>
            simp only [AudioTranscriber.transcribe_file_loop, if_neg hdur, hco, hres] at hrs
            exact (Except.noConfusion hrs)
          | ok results =>
            cases htr : oracle.transcribe with
            | error e2 =>
              simp only [AudioTranscriber.transcribe_file_loop, if_neg hdur, hco, hres, htr,
                AudioTranscriber.transcribe_audio_segment] at hrs
              rw [Except.ok.injEq] at hrs
              subst hrs
              exact ihT results hres r hr
            | ok t =>
              by_cases hkeep : t ≠ "" ∧ pyStrip t ≠ ""
              · simp only [AudioTranscriber.transcribe_file_loop, if_neg hdur, hco, hres, htr,
                  AudioTranscriber.transcribe_audio_segment, if_pos hkeep] at hrs
                rw [Except.ok.injEq] at hrs
                subst hrs
                rcases List.mem_cons.mp hr with h | h
                · subst h
                  exact ⟨hkeep.2, pyStrip_idem t⟩
                · exact ihT results hres r h
              · simp only [AudioTranscriber.transcribe_file_loop, if_neg hdur, hco, hres, htr,
                  AudioTranscriber.transcribe_audio_segment, if_neg hkeep] at hrs
                rw [Except.ok.injEq] at hrs
                subst hrs
                exact ihT results hres r hr

/-- C10 witness: the invariant applied to a concrete one-segment run whose
transcription output carries surrounding whitespace. -/
theorem c10_witness :
    (TranscriptSeg.mk "00:00:00" "00:00:02" "SPEAKER_00" "こんにちは").text ≠ ""
    ∧ pyStrip (TranscriptSeg.mk "00:00:00" "00:00:02" "SPEAKER_00" "こんにちは").text =
        (TranscriptSeg.mk "00:00:00" "00:00:02" "SPEAKER_00" "こんにちは").text := by
  refine (c10_stored_text_invariant
      [(DiarSeg.mk 0 2 "SPEAKER_00",
        SegOracle.mk (Except.ok (Waveform.mk 32000 16000)) (Except.ok " こんにちは "))]).1
    (TranscriptSeg.mk "00:00:00" "00:00:02" "SPEAKER_00" "こんにちは") ?_
  have hd : ¬ (((32000 : ℕ) : ℚ) / ((16000 : ℕ) : ℚ) < (0.1 : ℚ)) := by norm_num
  have hk : (" こんにちは " ≠ "" ∧ pyStrip " こんにちは " ≠ "") := ⟨by decide, by decide⟩
  have h0 : AudioProcessor.format_time 0 = "00:00:00" := by decide
  have h2 : AudioProcessor.format_time 2 = "00:00:02" := by decide
  have hs : pyStrip " こんにちは " = "こんにちは" := by decide
  simp only [AudioProcessor.process_file_loop, AudioProcessor.transcribe_segment,
    if_neg hd, if_pos hk, h0, h2, hs]
  simp

/-- C5 counterexample: in `AudioProcessor.process_file` a below-threshold
segment (0.05s, under both observed thresholds) still incurs a crop call,
because the crop precedes the duration check — refuting the claim that no
crop call is made for a below-threshold segment in both orchestrators. -/
theorem c5_counterexample :
    AudioProcessor.process_file_loop
      [(DiarSeg.mk 0 (0.05 : ℚ) "SPEAKER_00",
        SegOracle.mk (Except.ok (Waveform.mk 800 16000)) (Except.ok "テスト"))] =
      ([Event.cropCall], []) := by
  have hd : ((800 : ℕ) : ℚ) / ((16000 : ℕ) : ℚ) < (0.1 : ℚ) := by norm_num
  simp only [AudioProcessor.process_file_loop, if_pos hd]

/-- C5 (amended): in `AudioTranscriber.transcribe_file` the
below-threshold check (`segment.duration < 0.5`) comes first and a skipped
segment incurs neither a crop nor a transcription call; in
`AudioProcessor.process_file` the crop is performed first and the
threshold (0.1s, computed from the cropped waveform) only suppresses the
transcription call. -/
theorem c5_threshold_order :
    (∀ (segment : DiarSeg) (oracle : SegOracle) (rest : List (DiarSeg × SegOracle)),
      segment.stop - segment.start < (0.5 : ℚ) →
      AudioTranscriber.transcribe_file_loop ((segment, oracle) :: rest) =
        AudioTranscriber.transcribe_file_loop rest)
    ∧ (∀ (segment : DiarSeg) (oracle : SegOracle) (w : Waveform)
        (rest : List (DiarSeg × SegOracle)),
        oracle.crop = Except.ok w →
        (w.numSamples : ℚ) / (w.sampleRate : ℚ) < (0.1 : ℚ) →
        AudioProcessor.process_file_loop ((segment, oracle) :: rest) =
          (Event.cropCall :: (AudioProcessor.process_file_loop rest).1,
           (AudioProcessor.process_file_loop rest).2)) := by
  constructor
  · intro segment oracle rest h
    simp only [AudioTranscriber.transcribe_file_loop, if_pos h]
  · intro segment oracle w rest hco hdur
    simp only [AudioProcessor.process_file_loop, hco, if_pos hdur]

/-- C5 witness: the amended ordering facts applied to concrete
below-threshold segments. -/
theorem c5_witness :
    AudioTranscriber.transcribe_file_loop
      [(DiarSeg.mk 0 (0.25 : ℚ) "SPEAKER_00",
        SegOracle.mk (Except.error "never cropped") (Except.error "never transcribed"))] =
      AudioTranscriber.transcribe_file_loop []
    ∧ AudioProcessor.process_file_loop
        [(DiarSeg.mk 0 (0.05 : ℚ) "SPEAKER_01",
          SegOracle.mk (Except.ok (Waveform.mk 800 16000)) (Except.ok "x"))] =
        (Event.cropCall :: (AudioProcessor.process_file_loop []).1,
         (AudioProcessor.process_file_loop []).2) :=
  ⟨c5_threshold_order.1 _ _ _ (by norm_num),
   c5_threshold_order.2 _ _ _ _ rfl (by norm_num)⟩

/-- C1 counterexample: in `AudioTranscriber.transcribe_file` a crop
exception on a single segment is NOT caught — it terminates the whole
pipeline invocation with that error (the claim asserts no per-segment
crop exception terminates the invocation in either orchestrator). -/
theorem c1_counterexample :
    AudioTranscriber.transcribe_file
      (RunInput.mk false (Except.ok ())
        (Except.ok
          [(DiarSeg.mk 0 1 "SPEAKER_00",
            SegOracle.mk (Except.error "crop failure") (Except.ok "こんにちは"))])) =
      (Except.error "crop failure", 0) := by
  have hd : ¬ ((1 : ℚ) - 0 < (0.5 : ℚ)) := by norm_num
  simp only [AudioTranscriber.transcribe_file, AudioTranscriber.transcribe_file_loop,
    if_neg hd]
  rfl

/-- C1 (amended): per-segment error containment as the code implements it.
In `AudioProcessor.process_file` both a crop exception and a transcription
exception on one segment are caught and the segment is skipped, processing
continuing with the rest; in `AudioTranscriber.transcribe_file` only the
transcription exception is caught (inside `_transcribe_audio_segment`) —
the segment is skipped and processing continues — whereas a crop exception
propagates (see the counterexample). -/
theorem c1_per_segment_error_handling :
    (∀ (segment : DiarSeg) (e : String) (tr : Except String String)
        (rest : List (DiarSeg × SegOracle)),
      AudioProcessor.process_file_loop
          ((segment, SegOracle.mk (Except.error e) tr) :: rest) =
        (Event.cropCall :: (AudioProcessor.process_file_loop rest).1,
         (AudioProcessor.process_file_loop rest).2))
    ∧ (∀ (segment : DiarSeg) (w : Waveform) (e : String)
        (rest : List (DiarSeg × SegOracle)),
        ¬ ((w.numSamples : ℚ) / (w.sampleRate : ℚ) < (0.1 : ℚ)) →
        AudioProcessor.process_file_loop
            ((segment, SegOracle.mk (Except.ok w) (Except.error e)) :: rest) =
          (Event.cropCall :: Event.transcribeCall ::
             (AudioProcessor.process_file_loop rest).1,
           (AudioProcessor.process_file_loop rest).2))
    ∧ (∀ (segment : DiarSeg) (w : Waveform) (e : String)
        (rest : List (DiarSeg × SegOracle)),
        ¬ (segment.stop - segment.start < (0.5 : ℚ)) →
        AudioTranscriber.transcribe_file_loop
            ((segment, SegOracle.mk (Except.ok w) (Except.error e)) :: rest) =
          (Event.cropCall :: Event.transcribeCall ::
             (AudioTranscriber.transcribe_file_loop rest).1,
           (AudioTranscriber.transcribe_file_loop rest).2)) := by
  refine ⟨?_, ?_, ?_⟩
  · intro segment e tr rest
    simp only [AudioProcessor.process_file_loop]
  · intro segment w e rest h
    simp only [AudioProcessor.process_file_loop, if_neg h,
      AudioProcessor.transcribe_segment]
  · intro segment w e rest h
    cases hres : (AudioTranscriber.transcribe_file_loop rest).2 with
    | error e2 =>
      simp only [AudioTranscriber.transcribe_file_loop, if_neg h,
        AudioTranscriber.transcribe_audio_segment, hres]
    | ok results =>
      simp only [AudioTranscriber.transcribe_file_loop, if_neg h,
        AudioTranscriber.transcribe_audio_segment, hres]

/-- C1 witness: the amended containment facts applied to concrete
segments with failing crop and failing transcription. -/
theorem c1_witness :
    AudioProcessor.process_file_loop
        [(DiarSeg.mk 0 1 "SPEAKER_00",
          SegOracle.mk (Except.error "crop boom") (Except.ok "x"))] =
      (Event.cropCall :: (AudioProcessor.process_file_loop []).1,
       (AudioProcessor.process_file_loop []).2)
    ∧ AudioProcessor.process_file_loop
        [(DiarSeg.mk 0 1 "SPEAKER_00",
          SegOracle.mk (Except.ok (Waveform.mk 32000 16000)) (Except.error "whisper boom"))] =
      (Event.cropCall :: Event.transcribeCall :: (AudioProcessor.process_file_loop []).1,
       (AudioProcessor.process_file_loop []).2)
    ∧ AudioTranscriber.transcribe_file_loop
        [(DiarSeg.mk 0 1 "SPEAKER_00",
          SegOracle.mk (Except.ok (Waveform.mk 32000 16000)) (Except.error "whisper boom"))] =
      (Event.cropCall :: Event.transcribeCall ::
         (AudioTranscriber.transcribe_file_loop []).1,
       (AudioTranscriber.transcribe_file_loop []).2) :=
  ⟨c1_per_segment_error_handling.1 _ _ _ _,
   c1_per_segment_error_handling.2.1 _ _ _ _ (by norm_num),
   c1_per_segment_error_handling.2.2 _ _ _ _ (by norm_num)⟩

/-- C3 counterexample: `AudioProcessor.process_file` on a video input that
completes normally performs zero deletions of the extracted temp file
during the run — deletion is deferred to `cleanup()`/`__del__`, so it is
not the case that both orchestrators delete the temp file exactly once on
every exit path of the run. -/
theorem c3_counterexample :
    AudioProcessor.process_file (RunInput.mk true (Except.ok ()) (Except.ok [])) =
      (Except.ok [], 0) := by
  simp [AudioProcessor.process_file, AudioProcessor.process_file_loop]

/-- C3 (amended): on a video input, `AudioTranscriber.transcribe_file`
deletes the extracted temp file exactly once on every exit path (the
extraction-failure path deletes the partial file inside the extractor, all
other paths delete it in `finally`); `AudioProcessor.process_file` deletes
only on the extraction-failure path (the partial file) and performs no
deletion on any other exit path — removal of its temp file happens only in
the separate `cleanup()` (here shown to delete once when a temp file is
recorded). -/
theorem c3_temp_lifecycle (inp : RunInput) (h : inp.isVideo = true) :
    (AudioTranscriber.transcribe_file inp).2 = 1
    ∧ (∀ e, inp.extraction = Except.error e →
        (AudioProcessor.process_file inp).2 = 1)
    ∧ (∀ u, inp.extraction = Except.ok u →
        (AudioProcessor.process_file inp).2 = 0)
    ∧ AudioProcessor.cleanup true = 1 := by
  refine ⟨?_, ?_, ?_, rfl⟩
  · simp only [AudioTranscriber.transcribe_file, h, if_true]
    cases he : inp.extraction with
    | error e => rfl
    | ok u =>
      cases hdz : inp.diarization with
      | error e => rfl
      | ok segs => rfl
  · intro e he
    simp only [AudioProcessor.process_file, h, if_true, he]
  · intro u hu
    simp only [AudioProcessor.process_file, h, if_true, hu]
    cases hdz : inp.diarization with
    | error e => rfl
    | ok segs => rfl

/-- C3 witness: the amended lifecycle facts at concrete video runs (one
with successful extraction, one whose extraction fails). -/
theorem c3_witness :
    (AudioTranscriber.transcribe_file (RunInput.mk true (Except.ok ()) (Except.ok []))).2 = 1
    ∧ (AudioProcessor.process_file
        (RunInput.mk true (Except.error "no audio track") (Except.ok []))).2 = 1
    ∧ (AudioProcessor.process_file (RunInput.mk true (Except.ok ()) (Except.ok []))).2 = 0 :=
  ⟨(c3_temp_lifecycle (RunInput.mk true (Except.ok ()) (Except.ok [])) rfl).1,
   (c3_temp_lifecycle (RunInput.mk true (Except.error "no audio track") (Except.ok []))
      rfl).2.1 "no audio track" rfl,
   (c3_temp_lifecycle (RunInput.mk true (Except.ok ()) (Except.ok [])) rfl).2.2.1 () rfl⟩

/-- C4: if zero segments survive filtering, no report is generated from
the empty list and the CLI exits with status 1; the web front end likewise
generates no report. -/
theorem c4_empty_results (results : List TranscriptSeg) (fname now : String)
    (h : results = []) :
    main_after_transcribe results fname now = (1, none)
    ∧ web_app_after_transcribe results fname now = none := by
  subst h
  exact ⟨rfl, rfl⟩

/-- C4 witness: the empty-result behaviour at a concrete invocation. -/
theorem c4_witness :
    main_after_transcribe [] "meeting.mp4" "2025年10月12日 12:00:00" = (1, none)
    ∧ web_app_after_transcribe [] "meeting.mp4" "2025年10月12日 12:00:00" = none :=
  c4_empty_results [] "meeting.mp4" "2025年10月12日 12:00:00" rfl

/-- C8: in both report builders the rendered speaker-count line shows the
number of distinct `speaker` values of the input segments and the rendered
segment-count line shows the length of the input list. -/
theorem c8_report_counts (results : List TranscriptSeg) (fname now : String) :
    (AudioTranscriber.create_markdown_report_lines results fname now)[4]? =
      some ("**👥 話者数**: "
        ++ toString (results.map (fun r => r.speaker)).toFinset.card ++ "名")
    ∧ (AudioTranscriber.create_markdown_report_lines results fname now)[5]? =
      some ("**📊 総セグメント数**: " ++ toString results.length ++ "個")
    ∧ (AudioProcessor.results_to_markdown_lines results fname now)[4]? =
      some ("**話者数**: "
        ++ toString (results.map (fun r => r.speaker)).toFinset.card ++ "名")
    ∧ (AudioProcessor.results_to_markdown_lines results fname now)[5]? =
      some ("**総セグメント数**: " ++ toString results.length ++ "個") := by
  rw [List.card_toFinset]
  exact ⟨rfl, rfl, rfl, rfl⟩

/-- Helper: stripping the empty string gives the empty string. -/
theorem pyStrip_empty : pyStrip "" = "" := rfl

/-- Helper: length accounting for `AudioTranscriber.transcribe_file`'s
loop when every segment's crop and transcription succeed with fixed
outputs: kept segments + below-threshold segments + empty-text segments =
all segments. -/
theorem transcriber_pure_length
    (ps : List (DiarSeg × Waveform × String)) :
    ∃ rs, (AudioTranscriber.transcribe_file_loop
        (ps.map (fun p => (p.1, pureOracle p.2.1 p.2.2)))).2 = Except.ok rs
      ∧ rs.length
          + ps.countP (fun p => decide (p.1.stop - p.1.start < (0.5 : ℚ)))
          + ps.countP (fun p =>
              decide (¬ (p.1.stop - p.1.start < (0.5 : ℚ)))
                && decide (pyStrip p.2.2 = "")) = ps.length := by
  induction ps with
  | nil => exact ⟨[], rfl, rfl⟩
  | cons p ps ih =>
    obtain ⟨rs, hok, hlen⟩ := ih
    obtain ⟨seg, w, t⟩ := p
    by_cases hdur : seg.stop - seg.start < (0.5 : ℚ)
    · refine ⟨rs, ?_, ?_⟩
      · simpa only [List.map_cons, AudioTranscriber.transcribe_file_loop,
          if_pos hdur] using hok
      · rw [List.length_cons,
          List.countP_cons_of_pos _ _ (by simp [hdur]),
          List.countP_cons_of_neg _ _ (by simp [hdur])]
        omega
    · simp only [pureOracle] at hok
      by_cases hst : pyStrip t = ""
      · refine ⟨rs, ?_, ?_⟩
        · have hkeep : ¬ (t ≠ "" ∧ pyStrip t ≠ "") := fun hk => hk.2 hst
          simp only [List.map_cons, AudioTranscriber.transcribe_file_loop,
            if_neg hdur, pureOracle, AudioTranscriber.transcribe_audio_segment,
            hok, if_neg hkeep]
        · rw [List.length_cons,
            List.countP_cons_of_neg _ _ (by simp [hdur]),
            List.countP_cons_of_pos _ _ (by simp [hdur, hst])]
          omega
      · have ht : t ≠ "" := by
          intro he; rw [he] at hst; exact hst pyStrip_empty
        refine ⟨{ start := AudioTranscriber.seconds_to_timestamp seg.start,
                  stop := AudioTranscriber.seconds_to_timestamp seg.stop,
                  speaker := seg.speaker, text := pyStrip t } :: rs, ?_, ?_⟩
        · have hkeep : (t ≠ "" ∧ pyStrip t ≠ "") := ⟨ht, hst⟩
          simp only [List.map_cons, AudioTranscriber.transcribe_file_loop,
            if_neg hdur, pureOracle, AudioTranscriber.transcribe_audio_segment,
            hok, if_pos hkeep]
        · rw [List.length_cons, List.length_cons,
            List.countP_cons_of_neg _ _ (by simp [hdur]),
            List.countP_cons_of_neg _ _ (by simp [hdur, hst])]
          omega

/-- Helper: the same length accounting for `AudioProcessor.process_file`'s
loop (threshold computed from the cropped waveform). -/
theorem processor_pure_length
    (ps : List (DiarSeg × Waveform × String)) :
    (AudioProcessor.process_file_loop
        (ps.map (fun p => (p.1, pureOracle p.2.1 p.2.2)))).2.length
      + ps.countP (fun p =>
          decide ((p.2.1.numSamples : ℚ) / (p.2.1.sampleRate : ℚ) < (0.1 : ℚ)))
      + ps.countP (fun p =>
          decide (¬ ((p.2.1.numSamples : ℚ) / (p.2.1.sampleRate : ℚ) < (0.1 : ℚ)))
            && decide (pyStrip p.2.2 = "")) = ps.length := by
  induction ps with
  | nil => rfl
  | cons p ps ih =>
    obtain ⟨seg, w, t⟩ := p
    simp only [pureOracle] at ih ⊢
    by_cases hdur : (w.numSamples : ℚ) / (w.sampleRate : ℚ) < (0.1 : ℚ)
    · simp only [List.map_cons, AudioProcessor.process_file_loop, if_pos hdur]
      rw [List.length_cons,
        List.countP_cons_of_pos _ _ (by simp [hdur]),
        List.countP_cons_of_neg _ _ (by simp [hdur])]
      omega
    · by_cases hst : pyStrip t = ""
      · have hkeep : ¬ (t ≠ "" ∧ pyStrip t ≠ "") := fun hk => hk.2 hst
        simp only [List.map_cons, AudioProcessor.process_file_loop,
          if_neg hdur, AudioProcessor.transcribe_segment, if_neg hkeep]
        rw [List.length_cons,
          List.countP_cons_of_neg _ _ (by simp [hdur]),
          List.countP_cons_of_pos _ _ (by simp [hdur, hst])]
        omega
      · have ht : t ≠ "" := by
          intro he; rw [he] at hst; exact hst pyStrip_empty
        have hkeep : (t ≠ "" ∧ pyStrip t ≠ "") := ⟨ht, hst⟩
        simp only [List.map_cons, AudioProcessor.process_file_loop,
          if_neg hdur, AudioProcessor.transcribe_segment, if_pos hkeep]
        rw [List.length_cons, List.length_cons,
          List.countP_cons_of_neg _ _ (by simp [hdur]),
          List.countP_cons_of_neg _ _ (by simp [hdur, hst])]
        omega

/-- C2: for a fixed finite sequence of diarization segments with a fixed
successful transcription output per segment, the emitted TranscriptSeg
list length equals the number of input segments minus those below the
minimum-duration threshold minus those (at or above the threshold) whose
transcription text is empty after trimming — in both orchestrators, each
with its own threshold (0.5s on `segment.duration` for AudioTranscriber;
0.1s on the cropped-waveform duration for AudioProcessor). -/
theorem c2_output_length (ps : List (DiarSeg × Waveform × String)) :
    (∃ rs, (AudioTranscriber.transcribe_file_loop
        (ps.map (fun p => (p.1, pureOracle p.2.1 p.2.2)))).2 = Except.ok rs
      ∧ rs.length = ps.length
          - ps.countP (fun p => decide (p.1.stop - p.1.start < (0.5 : ℚ)))
          - ps.countP (fun p =>
              decide (¬ (p.1.stop - p.1.start < (0.5 : ℚ)))
                && decide (pyStrip p.2.2 = "")))
    ∧ (AudioProcessor.process_file_loop
        (ps.map (fun p => (p.1, pureOracle p.2.1 p.2.2)))).2.length
      = ps.length
          - ps.countP (fun p =>
              decide ((p.2.1.numSamples : ℚ) / (p.2.1.sampleRate : ℚ) < (0.1 : ℚ)))
          - ps.countP (fun p =>
              decide (¬ ((p.2.1.numSamples : ℚ) / (p.2.1.sampleRate : ℚ) < (0.1 : ℚ)))
                && decide (pyStrip p.2.2 = "")) := by
  obtain ⟨rs, hok, hlen⟩ := transcriber_pure_length ps
  have h2 := processor_pure_length ps
  exact ⟨⟨rs, hok, by omega⟩, by omega⟩
